import Mathlib

/-!
Shallow embedding of the order-lifecycle and history subsystem of the
`ibkr-connection` repository, together with theorems settling the frozen
claims about it.

Conventions of the embedding:
* Python numbers (`float(...)` results) are modelled as `ℚ`; the
  "must parse as a number" branches of the validators cannot fire on an
  already-numeric input and the claims quantify over numbers, so the
  validators take `ℚ` directly.
* Python dict records are modelled as a structure of `Option` fields, one
  per key the subsystem reads or writes, plus an `extra` association list
  standing for any further keys a record may carry; `none` means the key
  is absent from the dict.
* Wall-clock timestamps (`datetime.now().isoformat()`) are passed in
  explicitly as a `String` argument `now`.
* The backing JSON file is modelled as a `FileState`: missing, corrupt
  (unparseable raw text), or a parsed list of records.
* Numeric formatting inside messages (Python `f"{v:,.2f}"`) is abbreviated
  to `toString`; the quoted words of messages are kept verbatim (except
  that single-quote characters inside message text are dropped).
-/

namespace IbkrConn

/-! ## config/settings.py -/

/-- `MAX_ORDER_VALUE = 50000`  (config/settings.py). -/
def MAX_ORDER_VALUE : ℚ := 50000

/-- `MAX_POSITION_SIZE = 100000`  (config/settings.py). -/
def MAX_POSITION_SIZE : ℚ := 100000

/-! ## Python string primitives

Data-level versions of the Python string methods the subsystem uses
(`.upper()`, `.strip()`, `.title()` on one-word arguments), restricted to
the ASCII text this code handles. -/

/-- Python `s.upper()`. -/
def pyUpper (s : String) : String := String.mk (s.data.map Char.toUpper)

/-- Python `s.strip()`. -/
def pyStrip (s : String) : String :=
  String.mk (((s.data.dropWhile Char.isWhitespace).reverse.dropWhile Char.isWhitespace).reverse)

/-- Python `s.title()` on the one-word lowercase arguments used here. -/
def pyCapitalize (s : String) : String :=
  match s.data with
  | [] => ""
  | c :: cs => String.mk (c.toUpper :: cs.map Char.toLower)

/-! ## src/orders/validators.py -/

/-- `validate_symbol(symbol, instrument_type)` from src/orders/validators.py.
The `not isinstance(symbol, str)` branch is subsumed by the typed argument;
`not symbol` is the empty-string test.  Python `symbol.upper().strip()`
becomes `pyStrip (pyUpper symbol)`; the regex `^[A-Z]+$` becomes an
all-uppercase-letter test. -/
def validate_symbol (symbol : String) (instrument_type : String) : Bool × String :=
  if symbol = "" then (false, "Symbol must be a non-empty string")
  else
    let s := pyStrip (pyUpper symbol)
    if instrument_type = "forex" then
      if s.length ≠ 6 then (false, "Forex symbols must be exactly 6 characters (e.g., EURUSD)")
      else if ¬ (s.data.all Char.isAlpha) then (false, "Forex symbols must contain only letters")
      else (true, "Valid symbol")
    else if instrument_type = "stock" then
      if s.length < 1 ∨ s.length > 5 then (false, "Stock symbols must be 1-5 characters")
      else if ¬ (s.data.all fun c => 'A' ≤ c ∧ c ≤ 'Z') then
        (false, "Stock symbols must contain only uppercase letters")
      else (true, "Valid symbol")
    else if instrument_type = "option" then
      if s.length < 1 ∨ s.length > 5 then (false, "Option underlying symbols must be 1-5 characters")
      else (true, "Valid symbol")
    else (true, "Valid symbol")

/-- `validate_quantity(quantity, instrument_type)` from src/orders/validators.py.
`qty != int(qty)` (truncation) holds exactly when `qty` is not an integer,
i.e. `¬ qty.isInt`. -/
def validate_quantity (quantity : ℚ) (instrument_type : String) : Bool × String :=
  if quantity ≤ 0 then (false, "Quantity must be positive")
  else if quantity > MAX_POSITION_SIZE then
    (false, "Quantity exceeds maximum position size of 100,000")
  else if instrument_type = "forex" then
    if quantity < 1000 then (false, "Forex minimum quantity is 1,000")
    else if quantity > 10000000 then (false, "Forex maximum quantity is 10,000,000")
    else (true, "Valid quantity")
  else if instrument_type = "stock" then
    if ¬ quantity.isInt then (false, "Stock quantity must be a whole number")
    else if quantity < 1 then (false, "Stock minimum quantity is 1")
    else (true, "Valid quantity")
  else if instrument_type = "option" then
    if ¬ quantity.isInt then (false, "Option quantity must be a whole number")
    else if quantity < 1 then (false, "Option minimum quantity is 1")
    else (true, "Valid quantity")
  else (true, "Valid quantity")

/-- `validate_price(price, price_type)` from src/orders/validators.py.
Python `price_type.title()` on the one-word arguments used here is
`pyCapitalize`. -/
def validate_price (price : ℚ) (price_type : String) : Bool × String :=
  if price ≤ 0 then (false, pyCapitalize price_type ++ " price must be positive")
  else if price > 1000000 then (false, pyCapitalize price_type ++ " price seems unreasonably high")
  else (true, "Valid price")

/-- `validate_order_value(quantity, price, symbol)` from src/orders/validators.py.
The `symbol` argument is unused in the source as well. -/
def validate_order_value (quantity price : ℚ) (symbol : String) : Bool × String :=
  let total_value := quantity * price
  if total_value > MAX_ORDER_VALUE then
    (false, "Order value $" ++ toString total_value ++ " exceeds limit of $" ++ toString MAX_ORDER_VALUE)
  else (true, "Order value: $" ++ toString total_value)

/-- Python `pat in s` substring test, via `splitOn`. -/
def strContains (s pat : String) : Bool := (s.splitOn pat).length ≠ 1

/-- The symbol block of `validate_order_parameters`. -/
def vopSymbolErrs (symbol instrument_type : String) : List String :=
  let r := validate_symbol symbol instrument_type
  if r.1 then [] else ["Symbol: " ++ r.2]

/-- The action block of `validate_order_parameters`. -/
def vopActionErrs (action : String) : List String :=
  if action = "BUY" ∨ action = "SELL" then [] else ["Action must be BUY or SELL"]

/-- The quantity block of `validate_order_parameters`. -/
def vopQuantityErrs (quantity : ℚ) (instrument_type : String) : List String :=
  let r := validate_quantity quantity instrument_type
  if r.1 then [] else ["Quantity: " ++ r.2]

/-- The order-type block of `validate_order_parameters`. -/
def vopOrderTypeErrs (order_type : Int) : List String :=
  if order_type = 1 ∨ order_type = 2 ∨ order_type = 3 ∨ order_type = 4 then []
  else ["Order type must be 1 (Market), 2 (Limit), 3 (Stop), or 4 (Stop Limit)"]

/-- The limit-price block: `if order_type in [2, 4] and limit_price is not None`. -/
def vopLimitErrs (order_type : Int) (limit_price : Option ℚ) : List String :=
  if order_type = 2 ∨ order_type = 4 then
    match limit_price with
    | some p =>
      let r := validate_price p "limit"
      if r.1 then [] else ["Limit price: " ++ r.2]
    | none => []
  else []

/-- The stop-price block: `if order_type in [3, 4] and stop_price is not None`. -/
def vopStopErrs (order_type : Int) (stop_price : Option ℚ) : List String :=
  if order_type = 3 ∨ order_type = 4 then
    match stop_price with
    | some p =>
      let r := validate_price p "stop"
      if r.1 then [] else ["Stop price: " ++ r.2]
    | none => []
  else []

/-- The order-value block (errors, warnings):
`if order_type == 2 and limit_price is not None`. -/
def vopValueErrs (order_type : Int) (quantity : ℚ) (limit_price : Option ℚ)
    (symbol : String) : List String × List String :=
  if order_type = 2 then
    match limit_price with
    | some p =>
      let r := validate_order_value quantity p symbol
      if ¬ r.1 then (["Order value: " ++ r.2], [])
      else if ¬ strContains r.2 "exceeds" then ([], [r.2])
      else ([], [])
    | none => ([], [])
  else ([], [])

/-- The stop-limit cross-check block:
`if order_type == 4 and limit_price is not None and stop_price is not None`. -/
def vopCrossErrs (action : String) (order_type : Int)
    (limit_price stop_price : Option ℚ) : List String :=
  if order_type = 4 then
    match limit_price, stop_price with
    | some l, some s =>
      if action = "BUY" ∧ l ≤ s then
        ["For BUY stop-limit orders, limit price must be higher than stop price"]
      else if action = "SELL" ∧ l ≥ s then
        ["For SELL stop-limit orders, limit price must be lower than stop price"]
      else []
    | _, _ => []
  else []

/-- `validate_order_parameters(...)` from src/orders/validators.py: the
blocks above, appended in source order, returning `(errors, warnings)`. -/
def validate_order_parameters (symbol action : String) (quantity : ℚ)
    (order_type : Int) (limit_price stop_price : Option ℚ)
    (instrument_type : String) : List String × List String :=
  let v := vopValueErrs order_type quantity limit_price symbol
  (vopSymbolErrs symbol instrument_type ++ vopActionErrs action ++
     vopQuantityErrs quantity instrument_type ++ vopOrderTypeErrs order_type ++
     vopLimitErrs order_type limit_price ++ vopStopErrs order_type stop_price ++
     v.1 ++ vopCrossErrs action order_type limit_price stop_price,
   v.2)

/-! ## src/workflows/stock_order_workflow.py -/

/-- `validate_bracket_prices(entry_price, stop_loss_price, take_profit_price,
action, parent_type)` from src/workflows/stock_order_workflow.py.  The
`except` arm cannot fire on numeric inputs.  `errors.append` in source
order becomes list concatenation. -/
def validate_bracket_prices (entry_price stop_loss_price take_profit_price : ℚ)
    (action : String) (parent_type : Int) : List String :=
  (if pyUpper action = "BUY" then
    (if parent_type = 2 ∧ entry_price > 0 then
      (if stop_loss_price ≥ entry_price then
        ["For BUY orders, stop loss must be below entry price"] else []) ++
      (if take_profit_price ≤ entry_price then
        ["For BUY orders, take profit must be above entry price"] else [])
     else []) ++
    (if stop_loss_price ≥ take_profit_price then
      ["For BUY orders, stop loss must be below take profit"] else [])
   else
    (if parent_type = 2 ∧ entry_price > 0 then
      (if stop_loss_price ≤ entry_price then
        ["For SELL orders, stop loss must be above entry price"] else []) ++
      (if take_profit_price ≥ entry_price then
        ["For SELL orders, take profit must be below entry price"] else [])
     else []) ++
    (if stop_loss_price ≤ take_profit_price then
      ["For SELL orders, stop loss must be above take profit"] else [])) ++
  (if stop_loss_price ≤ 0 then ["Stop loss price must be positive"] else []) ++
  (if take_profit_price ≤ 0 then ["Take profit price must be positive"] else [])

/-! ## src/orders/history.py — the Order Record Store -/

/-- A history record (a Python dict).  One `Option` field per key the
subsystem reads or writes (`none` = key absent); `extra` stands for any
further keys the dict may carry. -/
structure OrderRecord where
  id              : Option Nat    := none
  timestamp       : Option String := none
  status          : Option String := none
  updated_at      : Option String := none
  order_id        : Option Nat    := none
  symbol          : Option String := none
  action          : Option String := none
  quantity        : Option ℚ      := none
  instrument_type : Option String := none
  order_type      : Option String := none
  order_type_num  : Option Int    := none
  limit_price     : Option ℚ      := none
  stop_price      : Option ℚ      := none
  extra           : List (String × String) := []
  deriving DecidableEq, Repr

/-- The backing JSON file `data/order_history.json`: missing, present but
unparseable (its raw text), or a parsed list of records. -/
inductive FileState where
  | missing : FileState
  | corrupt : String → FileState
  | good : List OrderRecord → FileState
  deriving DecidableEq

/-- `json.load` on the opened file: parse failure for a corrupt file. -/
def jsonLoad : FileState → Except String (List OrderRecord)
  | FileState.missing => Except.error "FileNotFoundError"
  | FileState.corrupt raw => Except.error ("Expecting value: " ++ raw)
  | FileState.good l => Except.ok l

/-- `load_order_history()` from src/orders/history.py: a missing file is
detected by `os.path.exists` and yields `[]`; otherwise `json.load` is run
under `try/except`, any read error degrading to `[]`. -/
def load_order_history (fs : FileState) : List OrderRecord :=
  match fs with
  | FileState.missing => []
  | _ =>
    match jsonLoad fs with
    | Except.ok l => l
    | Except.error _ => []

/-- `save_order_to_history(order_data)` from src/orders/history.py.
Returns the new file state together with the id the store wrote into the
record (the source mutates `order_data` in place, so the caller observes
this id).  `now` is the `datetime.now().isoformat()` string. -/
def save_order_to_history (fs : FileState) (order_data : OrderRecord)
    (now : String) : FileState × Nat :=
  let history := load_order_history fs
  let r := { order_data with timestamp := some now, id := some (history.length + 1) }
  (FileState.good (history ++ [r]), history.length + 1)

/-- `search_orders(symbol, instrument_type, action)` from
src/orders/history.py.  A `none` or empty-string argument is falsy in
Python and skips its filter; `o.get(key, default)` becomes
`Option.getD`; the `instrument_type` comparison is
`o.get('instrument_type') == instrument_type`, with no case folding. -/
def search_orders (fs : FileState)
    (symbol instrument_type action : Option String) : List OrderRecord :=
  let history := load_order_history fs
  if history.isEmpty then [] else
  let f1 := match symbol with
    | some s => if s = "" then history else
        history.filter fun o => pyUpper (o.symbol.getD "") = pyUpper s
    | none => history
  let f2 := match instrument_type with
    | some s => if s = "" then f1 else
        f1.filter fun o => o.instrument_type = some s
    | none => f1
  match action with
  | some s => if s = "" then f2 else
      f2.filter fun o => pyUpper (o.action.getD "") = pyUpper s
  | none => f2

/-- `get_order_by_id(order_id)` from src/orders/history.py:
`next((o for o in history if o['id'] == order_id), None)`. -/
def get_order_by_id (fs : FileState) (order_id : Nat) : Option OrderRecord :=
  (load_order_history fs).find? fun o => o.id = some order_id

/-- The in-place loop of `update_order_status`: mutate `status` and
`updated_at` of the first record whose `id` matches, then `break`. -/
def updateFirstStatus (l : List OrderRecord) (order_history_id : Nat)
    (new_status now : String) : List OrderRecord :=
  match l with
  | [] => []
  | r :: rs =>
    if r.id = some order_history_id then
      { r with status := some new_status, updated_at := some now } :: rs
    else r :: updateFirstStatus rs order_history_id new_status now

/-- `update_order_status(order_history_id, new_status)` from
src/orders/history.py: load (read errors already degraded to `[]` inside
`load_order_history`), update the first match in place, rewrite the whole
collection, return `True`; `writeOk` models whether the final rewrite
raises (the `except` arm returns `False`). -/
def update_order_status (fs : FileState) (writeOk : Bool)
    (order_history_id : Nat) (new_status now : String) : FileState × Bool :=
  let orders := load_order_history fs
  let updated := updateFirstStatus orders order_history_id new_status now
  if writeOk then (FileState.good updated, true) else (fs, false)

/-- A store operation, for claims quantifying over operation sequences.
`corrupt` is the external event that makes the backing file unreadable
(the read-failure path of §C4/C7). -/
inductive StoreOp where
  | append : OrderRecord → String → StoreOp
  | updateStatus : Nat → String → String → StoreOp
  | corrupt : String → StoreOp

/-- One store operation applied to the file state. -/
def storeStep (fs : FileState) : StoreOp → FileState
  | StoreOp.append r now => (save_order_to_history fs r now).1
  | StoreOp.updateStatus oid st now => (update_order_status fs true oid st now).1
  | StoreOp.corrupt raw => FileState.corrupt raw

/-- A sequence of store operations applied in order. -/
def storeRun (fs : FileState) (ops : List StoreOp) : FileState :=
  ops.foldl storeStep fs

/-! ## src/orders/cloning.py — the Clone Engine -/

/-- The three truthiness-guarded override assignments of
`quick_clone_order` (`if symbol: ...` etc.); `none` and falsy values
(empty string, zero) leave the copied field alone. -/
def apply_quick_overrides (d : OrderRecord) (symbol : Option String)
    (quantity : Option ℚ) (action : Option String) : OrderRecord :=
  let d1 := match symbol with
    | some s => if s ≠ "" then { d with symbol := some s } else d
    | none => d
  let d2 := match quantity with
    | some q => if q ≠ 0 then { d1 with quantity := some q } else d1
    | none => d1
  match action with
  | some a => if a ≠ "" then { d2 with action := some a } else d2
  | none => d2

/-- `quick_clone_order(order_id, symbol, quantity, action)` from
src/orders/cloning.py, as a function of the loaded history: find the
record, return `None` when absent; otherwise copy it, `pop` the keys
`id`, `timestamp` and `order_id`, apply the truthy overrides, and hand
the draft to `submit_cloned_order` (which performs no validation).  The
returned value is the draft that gets submitted; `none` means no
submission is attempted. -/
def quick_clone_order (history : List OrderRecord) (order_id : Nat)
    (symbol : Option String) (quantity : Option ℚ)
    (action : Option String) : Option OrderRecord :=
  match history.find? (fun o => o.id = some order_id) with
  | none => none
  | some original_order =>
    some (apply_quick_overrides
      { original_order with id := none, timestamp := none, order_id := none }
      symbol quantity action)

/-! ## Sample records and the store id invariant -/

/-- Sample stored record used by the clone claim: an already-filled forex
order carrying an id, timestamp, gateway order id and status. -/
def c2Rec : OrderRecord :=
  { id := some 1, timestamp := some "2024-01-01T00:00:00",
    status := some "Filled", order_id := some 77,
    symbol := some "EURUSD", action := some "BUY",
    quantity := some 10000, instrument_type := some "forex",
    order_type := some "Market Order", order_type_num := some 1 }

/-- Sample stored record used by the search claim. -/
def c8Rec : OrderRecord :=
  { id := some 1, symbol := some "EURUSD",
    instrument_type := some "forex", action := some "BUY" }

/-- Concrete records for the store claims. -/
def c4r1 : OrderRecord :=
  { symbol := some "EURUSD", action := some "BUY",
    quantity := some 10000, instrument_type := some "forex" }

def c4r2 : OrderRecord :=
  { symbol := some "AAPL", action := some "SELL",
    quantity := some 100, instrument_type := some "stock" }

def c6RecA : OrderRecord := { c4r1 with id := some 1, timestamp := some "t1" }

def c6RecB : OrderRecord := { c4r2 with id := some 2, timestamp := some "t2" }

/-- The store invariant every reachable (uncorrupted) history satisfies:
record ids are exactly the 1-based positions. -/
def canonList (l : List OrderRecord) : Prop :=
  l.map OrderRecord.id = (List.range l.length).map fun i => some (i + 1)

/-! ## Theorems settling the claims -/

lemma validate_quantity_forex_eq (q : ℚ) : validate_quantity q "forex" =
    if q ≤ 0 then (false, "Quantity must be positive")
    else if q > 100000 then (false, "Quantity exceeds maximum position size of 100,000")
    else if q < 1000 then (false, "Forex minimum quantity is 1,000")
    else if q > 10000000 then (false, "Forex maximum quantity is 10,000,000")
    else (true, "Valid quantity") := by
  unfold validate_quantity MAX_POSITION_SIZE
  norm_num

/-- C1 (counterexample): the forex quantity 200,000 lies inside the claimed
valid band [1000, 10,000,000], yet `validate_quantity` rejects it (the
`MAX_POSITION_SIZE = 100,000` check fires first). -/
theorem validate_quantity_forex_band_counterexample :
    (1000 : ℚ) ≤ 200000 ∧ (200000 : ℚ) ≤ 10000000 ∧
    (validate_quantity 200000 "forex").1 = false := by decide

/-- C1 (amended): for instrument type "forex", `validate_quantity` accepts a
quantity `q` exactly when `1000 ≤ q ≤ 100,000`: nonpositive quantities are
invalid, and the configured `MAX_POSITION_SIZE = 100,000` tightens the
claimed upper bound of 10,000,000 down to 100,000. -/
theorem validate_quantity_forex_band (q : ℚ) :
    (validate_quantity q "forex").1 = true ↔ 1000 ≤ q ∧ q ≤ 100000 := by
  rw [validate_quantity_forex_eq]
  split_ifs with h1 h2 h3 h4
  · simp
    intro h
    linarith
  · simp
    intro h
    linarith
  · simp
    intro h
    linarith
  · exact absurd h4 (by linarith)
  · simp
    exact ⟨by linarith, by linarith⟩

/-- C3 (counterexample): for a bracket around a market parent
(`parent_type = 1`), a BUY with `stop_loss = 150 ≥ entry = 100` produces
no error at all: the entry-relative checks are guarded by
`parent_type == 2 and entry_price > 0`. -/
theorem validate_bracket_prices_counterexample :
    (150 : ℚ) ≥ 100 ∧ validate_bracket_prices 100 150 200 "BUY" 1 = [] := by decide

lemma validate_bracket_prices_buy_eq (e sl tp : ℚ) (pt : Int) :
    validate_bracket_prices e sl tp "BUY" pt =
      ((if pt = 2 ∧ e > 0 then
        (if sl ≥ e then ["For BUY orders, stop loss must be below entry price"] else []) ++
        (if tp ≤ e then ["For BUY orders, take profit must be above entry price"] else [])
       else []) ++
      (if sl ≥ tp then ["For BUY orders, stop loss must be below take profit"] else [])) ++
      (if sl ≤ 0 then ["Stop loss price must be positive"] else []) ++
      (if tp ≤ 0 then ["Take profit price must be positive"] else []) := by
  unfold validate_bracket_prices
  rw [if_pos (show pyUpper "BUY" = "BUY" from rfl)]

/-- C3 (amended): for a bracket whose parent is a Limit order
(`parent_type = 2`) with a positive entry price, a BUY with
`stop_loss ≥ entry` produces the error "For BUY orders, stop loss must be
below entry price", and a SELL with `take_profit ≥ entry` produces the
error "For SELL orders, take profit must be below entry price"; violations
are collected rather than short-circuited, so a BUY violating the
stop-loss/entry, take-profit/entry and stop-loss/take-profit conditions at
once reports all three errors. -/
theorem validate_bracket_prices_entry_checks (e sl tp : ℚ) (he : 0 < e) :
    (sl ≥ e →
      "For BUY orders, stop loss must be below entry price" ∈
        validate_bracket_prices e sl tp "BUY" 2) ∧
    (tp ≥ e →
      "For SELL orders, take profit must be below entry price" ∈
        validate_bracket_prices e sl tp "SELL" 2) ∧
    (sl ≥ e → tp ≤ e → sl ≥ tp →
      "For BUY orders, stop loss must be below entry price" ∈
          validate_bracket_prices e sl tp "BUY" 2 ∧
      "For BUY orders, take profit must be above entry price" ∈
          validate_bracket_prices e sl tp "BUY" 2 ∧
      "For BUY orders, stop loss must be below take profit" ∈
          validate_bracket_prices e sl tp "BUY" 2) := by
  have hsell : validate_bracket_prices e sl tp "SELL" 2 =
      ((if (2:Int) = 2 ∧ e > 0 then
        (if sl ≤ e then ["For SELL orders, stop loss must be above entry price"] else []) ++
        (if tp ≥ e then ["For SELL orders, take profit must be below entry price"] else [])
       else []) ++
      (if sl ≤ tp then ["For SELL orders, stop loss must be above take profit"] else [])) ++
      (if sl ≤ 0 then ["Stop loss price must be positive"] else []) ++
      (if tp ≤ 0 then ["Take profit price must be positive"] else []) := by
    unfold validate_bracket_prices
    rw [if_neg (show ¬ pyUpper "SELL" = "BUY" by decide)]
  refine ⟨?_, ?_, ?_⟩
  · intro h1
    rw [validate_bracket_prices_buy_eq]
    simp [List.mem_append, he, h1]
  · intro h2
    rw [hsell]
    simp [List.mem_append, he, h2]
  · intro h1 h2 h3
    rw [validate_bracket_prices_buy_eq]
    refine ⟨?_, ?_, ?_⟩ <;> simp [List.mem_append, he, h1, h2, h3]

/-- Witness for `validate_bracket_prices_entry_checks`. -/
theorem validate_bracket_prices_entry_checks_witness :
    "For BUY orders, stop loss must be below entry price" ∈
      validate_bracket_prices 100 150 90 "BUY" 2 :=
  ((validate_bracket_prices_entry_checks 100 150 90 (by norm_num)).2.2
    (by norm_num) (by norm_num) (by norm_num)).1

lemma vopLimitErrs_none (ot : Int) : vopLimitErrs ot none = [] := by
  unfold vopLimitErrs; split <;> rfl

lemma vopValueErrs_none (ot : Int) (q : ℚ) (s : String) :
    vopValueErrs ot q none s = ([], []) := by
  unfold vopValueErrs; split <;> rfl

lemma vopStopErrs_none (ot : Int) : vopStopErrs ot none = [] := by
  unfold vopStopErrs; split <;> rfl

lemma vopCrossErrs_none_left (a : String) (ot : Int) (sp : Option ℚ) :
    vopCrossErrs a ot none sp = [] := by
  unfold vopCrossErrs; split
  · cases sp <;> rfl
  · rfl

lemma vopCrossErrs_none_right (a : String) (ot : Int) (lp : Option ℚ) :
    vopCrossErrs a ot lp none = [] := by
  unfold vopCrossErrs; split
  · cases lp <;> rfl
  · rfl

/-- C10: when `limit_price` is absent, `validate_order_parameters` raises
no limit-price, order-value or stop-limit cross-check error (its error
list is exactly the symbol/action/quantity/order-type/stop blocks), and
when `stop_price` is absent it raises no stop-price or cross-check error:
each price check runs only when the corresponding price is supplied, so a
Limit/Stop/StopLimit order with a missing price draws no error about that
price. -/
theorem validate_order_parameters_missing_price_skips (s a : String)
    (q : ℚ) (ot : Int) (it : String) :
    (∀ sp, (validate_order_parameters s a q ot none sp it).1 =
      vopSymbolErrs s it ++ vopActionErrs a ++ vopQuantityErrs q it ++
        vopOrderTypeErrs ot ++ vopStopErrs ot sp) ∧
    (∀ lp, (validate_order_parameters s a q ot lp none it).1 =
      vopSymbolErrs s it ++ vopActionErrs a ++ vopQuantityErrs q it ++
        vopOrderTypeErrs ot ++ vopLimitErrs ot lp ++
        (vopValueErrs ot q lp s).1) := by
  constructor
  · intro sp
    unfold validate_order_parameters
    rw [vopLimitErrs_none, vopValueErrs_none, vopCrossErrs_none_left]
    simp
  · intro lp
    unfold validate_order_parameters
    rw [vopStopErrs_none, vopCrossErrs_none_right]
    simp

/-- C7: a read failure on the backing history file (corrupt/unreadable
contents, `jsonLoad` raising) degrades to the empty history rather than
propagating, and a missing file likewise yields the empty history. -/
theorem load_order_history_read_failure_empty (raw : String) :
    (∃ e, jsonLoad (FileState.corrupt raw) = Except.error e) ∧
    load_order_history (FileState.corrupt raw) = [] ∧
    load_order_history FileState.missing = [] :=
  ⟨⟨"Expecting value: " ++ raw, rfl⟩, rfl, rfl⟩

/-- C9: `update_order_status` returns `True` whenever the rewrite of the
history file succeeds, even when no stored record carries the requested
id: the boolean reports write success, not that a match was found. -/
theorem update_order_status_true_without_match (fs : FileState)
    (oid : Nat) (st now : String)
    (h : ∀ r ∈ load_order_history fs, r.id ≠ some oid) :
    (update_order_status fs true oid st now).2 = true := rfl

/-- Witness for `update_order_status_true_without_match`. -/
theorem update_order_status_true_without_match_witness :
    (∀ r ∈ load_order_history (FileState.good [{ id := some 1 }]),
      r.id ≠ some 5) ∧
    (update_order_status (FileState.good [{ id := some 1 }]) true 5
        "CANCEL_REQUESTED" "2024-01-02T00:00:00").2 = true :=
  ⟨by decide, update_order_status_true_without_match
    (FileState.good [{ id := some 1 }]) 5 "CANCEL_REQUESTED"
    "2024-01-02T00:00:00" (by decide)⟩

/-- C2 (counterexample): cloning record 1 with quantity overridden to
20,000,000 strips `id`/`timestamp`/`order_id` but leaves the inherited
`status = "Filled"` in the draft, and the draft is handed to submission
(result is `some`) although the overridden quantity fails validation: no
re-validation guards the gateway call. -/
theorem quick_clone_order_counterexample :
    quick_clone_order [c2Rec] 1 none (some 20000000) none =
      some { c2Rec with id := none, timestamp := none, order_id := none,
                        quantity := some 20000000 } ∧
    ({ c2Rec with id := none, timestamp := none, order_id := none,
                  quantity := some 20000000 } : OrderRecord).status = some "Filled" ∧
    (validate_quantity 20000000 "forex").1 = false := by decide

lemma apply_quick_overrides_frame (d : OrderRecord) (sy : Option String)
    (q : Option ℚ) (ac : Option String) :
    (apply_quick_overrides d sy q ac).id = d.id ∧
    (apply_quick_overrides d sy q ac).timestamp = d.timestamp ∧
    (apply_quick_overrides d sy q ac).order_id = d.order_id ∧
    (apply_quick_overrides d sy q ac).status = d.status := by
  unfold apply_quick_overrides
  rcases sy with _ | s <;> rcases q with _ | qq <;> rcases ac with _ | a <;>
    dsimp only <;> (try split_ifs) <;> exact ⟨rfl, rfl, rfl, rfl⟩

/-- C2 (amended): `quick_clone_order` fails fast (no draft, hence no
submission) when the record id is absent from the loaded history; when the
record is found, the submitted draft is exactly the copy with `id`,
`timestamp` and `order_id` removed and the truthy overrides applied — the
inherited `status` is NOT stripped, and the draft is handed to
`submit_cloned_order` unconditionally, with no re-validation step. -/
theorem quick_clone_order_behaviour (history : List OrderRecord)
    (oid : Nat) (sy : Option String) (q : Option ℚ) (ac : Option String) :
    (history.find? (fun o => o.id = some oid) = none →
      quick_clone_order history oid sy q ac = none) ∧
    (∀ orig, history.find? (fun o => o.id = some oid) = some orig →
      quick_clone_order history oid sy q ac =
        some (apply_quick_overrides
          { orig with id := none, timestamp := none, order_id := none }
          sy q ac) ∧
      (apply_quick_overrides
          { orig with id := none, timestamp := none, order_id := none }
          sy q ac).id = none ∧
      (apply_quick_overrides
          { orig with id := none, timestamp := none, order_id := none }
          sy q ac).timestamp = none ∧
      (apply_quick_overrides
          { orig with id := none, timestamp := none, order_id := none }
          sy q ac).order_id = none ∧
      (apply_quick_overrides
          { orig with id := none, timestamp := none, order_id := none }
          sy q ac).status = orig.status) := by
  constructor
  · intro hnone
    unfold quick_clone_order
    rw [hnone]
  · intro orig hfound
    have hframe := apply_quick_overrides_frame
      { orig with id := none, timestamp := none, order_id := none } sy q ac
    refine ⟨?_, hframe.1, hframe.2.1, hframe.2.2.1, hframe.2.2.2⟩
    unfold quick_clone_order
    rw [hfound]

/-- Witness for `quick_clone_order_behaviour`. -/
theorem quick_clone_order_behaviour_witness :
    quick_clone_order [c2Rec] 2 none none none = none :=
  (quick_clone_order_behaviour [c2Rec] 2 none none none).1 (by decide)

/-- C8 (counterexample): the record stores `instrument_type = "forex"` and
the filter `"FOREX"` matches it case-insensitively, yet `search_orders`
returns nothing: the instrument-type filter is a case-SENSITIVE exact
comparison, unlike the symbol and action filters. -/
theorem search_orders_counterexample :
    pyUpper ((c8Rec.instrument_type).getD "") = pyUpper "FOREX" ∧
    search_orders (FileState.good [c8Rec]) none (some "FOREX") none = [] := by
  decide

/-- C8 (amended): a record is returned by `search_orders` exactly when it
is in the loaded history and passes every supplied filter (absent or
empty filters match everything, and filters combine with AND semantics);
the symbol and action filters compare case-insensitively, while the
instrument-type filter is a case-sensitive exact match. -/
theorem search_orders_characterization (fs : FileState)
    (sy it ac : Option String) (o : OrderRecord) :
    o ∈ search_orders fs sy it ac ↔
      o ∈ load_order_history fs ∧
      (∀ s, sy = some s → s ≠ "" → pyUpper (o.symbol.getD "") = pyUpper s) ∧
      (∀ s, it = some s → s ≠ "" → o.instrument_type = some s) ∧
      (∀ s, ac = some s → s ≠ "" → pyUpper (o.action.getD "") = pyUpper s) := by
  unfold search_orders
  rcases hcase : load_order_history fs with _ | ⟨a, t⟩
  · simp
  · rw [if_neg (by simp)]
    rcases sy with _ | s1 <;> rcases it with _ | s2 <;> rcases ac with _ | s3 <;>
      simp only [Option.some.injEq, forall_eq', List.mem_filter,
        reduceCtorEq, false_implies, forall_const, IsEmpty.forall_iff,
        implies_true, true_and, and_true] <;>
      split_ifs <;>
      simp_all [List.mem_filter, and_assoc, and_comm, and_left_comm]

lemma canonList_nil : canonList [] := rfl

lemma canonList_append (l : List OrderRecord) (r : OrderRecord)
    (h : canonList l) (hr : r.id = some (l.length + 1)) :
    canonList (l ++ [r]) := by
  unfold canonList at *
  simp [List.range_succ, h, hr]

lemma canonList_id_lt (l : List OrderRecord) (h : canonList l)
    (a : OrderRecord) (ha : a ∈ l) :
    ∃ k, a.id = some (k + 1) ∧ k < l.length := by
  have hm : a.id ∈ l.map OrderRecord.id := List.mem_map_of_mem _ ha
  rw [h] at hm
  simp only [List.mem_map, List.mem_range] at hm
  obtain ⟨i, hi, hid⟩ := hm
  exact ⟨i, hid.symm, hi⟩

lemma find?_append_none (p : OrderRecord → Bool) (l1 l2 : List OrderRecord)
    (h : ∀ a ∈ l1, p a = false) : (l1 ++ l2).find? p = l2.find? p := by
  induction l1 with
  | nil => rfl
  | cons a t ih =>
    have ha := h a (by simp)
    simp only [List.cons_append, List.find?, ha]
    exact ih (fun b hb => h b (by simp [hb]))

lemma updateFirstStatus_map_id (l : List OrderRecord) (oid : Nat)
    (st now : String) :
    (updateFirstStatus l oid st now).map OrderRecord.id =
      l.map OrderRecord.id := by
  induction l with
  | nil => rfl
  | cons r rs ih =>
    unfold updateFirstStatus
    split_ifs with h
    · simp
    · simp [ih]

lemma updateFirstStatus_map_timestamp (l : List OrderRecord) (oid : Nat)
    (st now : String) :
    (updateFirstStatus l oid st now).map OrderRecord.timestamp =
      l.map OrderRecord.timestamp := by
  induction l with
  | nil => rfl
  | cons r rs ih =>
    unfold updateFirstStatus
    split_ifs with h
    · simp
    · simp [ih]

lemma updateFirstStatus_canon (l : List OrderRecord) (oid : Nat)
    (st now : String) (h : canonList l) :
    canonList (updateFirstStatus l oid st now) := by
  have h1 := updateFirstStatus_map_id l oid st now
  have hlen : (updateFirstStatus l oid st now).length = l.length := by
    have := congrArg List.length h1
    simpa using this
  unfold canonList
  rw [h1, hlen]
  exact h

/-- C4 (counterexample): in the operation sequence append, file
corruption, append — the second append runs the read-failure path
(`load_order_history` degrades the corrupt file to the empty history) and
re-assigns id 1 to a different record, so "an id is never reused for a
different record" fails once the read-failure path is involved. -/
theorem store_id_reuse_counterexample :
    storeRun (FileState.good []) [StoreOp.append c4r1 "t1"] =
      FileState.good [{ c4r1 with timestamp := some "t1", id := some 1 }] ∧
    storeRun (FileState.good [])
        [StoreOp.append c4r1 "t1", StoreOp.corrupt "garbage",
         StoreOp.append c4r2 "t2"] =
      FileState.good [{ c4r2 with timestamp := some "t2", id := some 1 }] ∧
    ({ c4r1 with timestamp := some "t1", id := some 1 } : OrderRecord) ≠
      { c4r2 with timestamp := some "t2", id := some 1 } := by decide

/-- C4 (amended): over append/update operations on an uncorrupted store,
ids are assigned monotonically at insertion (1-based, id = count + 1) and
the canonical-id invariant — which makes reuse of an id for a different
record impossible — is preserved; `update_order_status` changes no
record's `id` or `timestamp`.  (After a read failure the history degrades
to empty and id assignment restarts at 1, which is why the read-failure
path is excluded here; see the counterexample.) -/
theorem store_ids_and_timestamps_stable :
    canonList ([] : List OrderRecord) ∧
    (∀ (l : List OrderRecord) (r : OrderRecord) (now : String), canonList l →
      (save_order_to_history (FileState.good l) r now).2 = l.length + 1 ∧
      (save_order_to_history (FileState.good l) r now).1 =
        FileState.good
          (l ++ [{ r with timestamp := some now, id := some (l.length + 1) }]) ∧
      canonList
        (l ++ [{ r with timestamp := some now, id := some (l.length + 1) }])) ∧
    (∀ (l : List OrderRecord) (oid : Nat) (st now : String),
      (update_order_status (FileState.good l) true oid st now).1 =
        FileState.good (updateFirstStatus l oid st now) ∧
      (updateFirstStatus l oid st now).map OrderRecord.id =
        l.map OrderRecord.id ∧
      (updateFirstStatus l oid st now).map OrderRecord.timestamp =
        l.map OrderRecord.timestamp ∧
      (canonList l → canonList (updateFirstStatus l oid st now))) := by
  refine ⟨canonList_nil, ?_, ?_⟩
  · intro l r now h
    exact ⟨rfl, rfl, canonList_append l _ h rfl⟩
  · intro l oid st now
    exact ⟨rfl, updateFirstStatus_map_id l oid st now,
      updateFirstStatus_map_timestamp l oid st now,
      updateFirstStatus_canon l oid st now⟩

/-- Witness for `store_ids_and_timestamps_stable`. -/
theorem store_ids_and_timestamps_stable_witness :
    (save_order_to_history (FileState.good [{ id := some 1 }]) c4r2 "t3").2 = 2 :=
  (store_ids_and_timestamps_stable.2.1 [{ id := some 1 }] c4r2 "t3" (by unfold canonList; rfl)).1

/-- C5: round trip — appending a record to a store satisfying the id
invariant makes `load_order_history` return the old records plus the
input record with exactly `id` and `timestamp` added, and
`get_order_by_id` on the assigned id returns that same record. -/
theorem save_round_trip (l : List OrderRecord) (r : OrderRecord)
    (now : String) (h : canonList l) :
    load_order_history (save_order_to_history (FileState.good l) r now).1 =
      l ++ [{ r with timestamp := some now, id := some (l.length + 1) }] ∧
    get_order_by_id (save_order_to_history (FileState.good l) r now).1
        (save_order_to_history (FileState.good l) r now).2 =
      some { r with timestamp := some now, id := some (l.length + 1) } := by
  refine ⟨rfl, ?_⟩
  show (l ++ [{ r with timestamp := some now, id := some (l.length + 1) }]).find?
      (fun o : OrderRecord => o.id = some (l.length + 1)) = _
  rw [find?_append_none]
  · simp [List.find?]
  · intro a ha
    obtain ⟨k, hk, hklt⟩ := canonList_id_lt l h a ha
    simp only [hk, decide_eq_false_iff_not, Option.some.injEq]
    omega

/-- Witness for `save_round_trip`. -/
theorem save_round_trip_witness :
    get_order_by_id (save_order_to_history (FileState.good []) c4r1 "t1").1
        (save_order_to_history (FileState.good []) c4r1 "t1").2 =
      some { c4r1 with timestamp := some "t1", id := some 1 } :=
  (save_round_trip [] c4r1 "t1" canonList_nil).2

lemma updateFirstStatus_first_match (l : List OrderRecord) (oid : Nat)
    (st now : String) (hex : ∃ r ∈ l, r.id = some oid) :
    ∃ i, ∃ hi : i < l.length,
      (l.get ⟨i, hi⟩).id = some oid ∧
      (∀ j (hj : j < l.length), j < i → (l.get ⟨j, hj⟩).id ≠ some oid) ∧
      updateFirstStatus l oid st now =
        l.set i { l.get ⟨i, hi⟩ with status := some st, updated_at := some now } := by
  induction l with
  | nil => obtain ⟨r, hr, _⟩ := hex; cases hr
  | cons a t ih =>
    by_cases ha : a.id = some oid
    · refine ⟨0, Nat.succ_pos _, ha, ?_, ?_⟩
      · intro j hj hj0; omega
      · unfold updateFirstStatus
        rw [if_pos ha]
        rfl
    · have hex2 : ∃ r ∈ t, r.id = some oid := by
        obtain ⟨r, hr, hrid⟩ := hex
        rcases List.mem_cons.mp hr with h1 | h2
        · exact absurd (h1 ▸ hrid) ha
        · exact ⟨r, h2, hrid⟩
      obtain ⟨i, hi, h1, h2, h3⟩ := ih hex2
      refine ⟨i + 1, Nat.succ_lt_succ hi, by simpa using h1, ?_, ?_⟩
      · intro j hj hji
        cases j with
        | zero => simpa using ha
        | succ k =>
          have hk : k < t.length := by simpa using hj
          have hki : k < i := by omega
          simpa using h2 k hk hki
      · unfold updateFirstStatus
        rw [if_neg ha, h3]
        rfl

/-- C6 (frame): when some stored record carries the requested id,
`update_order_status` rewrites the collection with only the FIRST such
record replaced by a copy whose `status` and `updated_at` are set; every
other field of that record (via the record update) and every other record
(via `List.set`) are untouched. -/
theorem update_order_status_frame (l : List OrderRecord) (oid : Nat)
    (st now : String) (h : ∃ r ∈ l, r.id = some oid) :
    ∃ i, ∃ hi : i < l.length,
      (l.get ⟨i, hi⟩).id = some oid ∧
      (∀ j (hj : j < l.length), j < i → (l.get ⟨j, hj⟩).id ≠ some oid) ∧
      (update_order_status (FileState.good l) true oid st now).1 =
        FileState.good
          (l.set i { l.get ⟨i, hi⟩ with status := some st, updated_at := some now }) := by
  obtain ⟨i, hi, h1, h2, h3⟩ := updateFirstStatus_first_match l oid st now h
  refine ⟨i, hi, h1, h2, ?_⟩
  show FileState.good (updateFirstStatus l oid st now) = _
  rw [h3]

/-- Witness for `update_order_status_frame`. -/
theorem update_order_status_frame_witness :
    ∃ i, ∃ hi : i < ([c6RecA, c6RecB] : List OrderRecord).length,
      (([c6RecA, c6RecB] : List OrderRecord).get ⟨i, hi⟩).id = some 2 ∧
      (∀ j (hj : j < ([c6RecA, c6RecB] : List OrderRecord).length), j < i →
        (([c6RecA, c6RecB] : List OrderRecord).get ⟨j, hj⟩).id ≠ some 2) ∧
      (update_order_status (FileState.good [c6RecA, c6RecB]) true 2
          "CANCEL_REQUESTED" "t9").1 =
        FileState.good
          ([c6RecA, c6RecB].set i
            { ([c6RecA, c6RecB] : List OrderRecord).get ⟨i, hi⟩ with
                status := some "CANCEL_REQUESTED", updated_at := some "t9" }) :=
  update_order_status_frame [c6RecA, c6RecB] 2 "CANCEL_REQUESTED" "t9"
    ⟨c6RecB, by decide, by decide⟩

end IbkrConn
